import Mathlib

/-!
Verification development for `prix_six_engine.py` ("The Paddock Pub Chat"
newsletter generator).  The file shallowly embeds the deduplication
algorithm (`deduplicate_stories`, built on `difflib.SequenceMatcher`),
the LLM response normalization performed by `call_llm`, and the
two-phase generation pipeline driven by `main`, and proves the spec's
testable properties about them.
-/

namespace PrixSix

/-- One fetched news story: the dict with keys `title`, `summary`,
`link`, `source` produced by `fetch_news`. -/
structure Story where
  title : String
  summary : String
  link : String
  source : String
deriving DecidableEq

/-- ASCII model of Python's `str.lower`, applied code-point-wise.
(`Char.toLower` lowers exactly the ASCII letters; the titles compared by
the engine are treated code point by code point, as Python does.) -/
def pyLower (s : String) : String := ⟨s.data.map Char.toLower⟩

/-!
### difflib.SequenceMatcher

`SequenceMatcher(None, a, b).ratio()` as used by `deduplicate_stories`.
With `isjunk = None` and titles far below difflib's 200-element autojunk
cutoff, the junk machinery is inert; `runLen a b i j` is the value
`newj2len[j]` that `find_longest_match` computes at row `i`: the length
of the common run of equal elements ending at `a[i]`/`b[j]`.
-/

/-- Length of the maximal common run of equal elements ending at
positions `i` of `a` and `j` of `b` (difflib's `j2len` recurrence:
`k = j2len.get(j-1, 0) + 1` when `a[i] == b[j]`, else no entry). -/
def runLen (a b : List Char) : Nat → Nat → Nat
  | 0, j =>
    match a[0]?, b[j]? with
    | some x, some y => if x = y then 1 else 0
    | _, _ => 0
  | i + 1, 0 =>
    match a[i + 1]?, b[0]? with
    | some x, some y => if x = y then 1 else 0
    | _, _ => 0
  | i + 1, j + 1 =>
    match a[i + 1]?, b[j + 1]? with
    | some x, some y => if x = y then runLen a b i j + 1 else 0
    | _, _ => 0

/-- difflib `find_longest_match` over the whole of `a` and `b`
(window `alo = blo = 0`, `ahi = |a|`, `bhi = |b|`), junk-free: scan
`i` ascending and `j` ascending, keep the first strictly larger run,
recording `(i - k + 1, j - k + 1, k)`.  Positions `j` with
`b[j] ≠ a[i]` have run length `0` and can never strictly beat the
current best, so scanning all `j` matches difflib's `b2j` scan.
With no junk and no popular elements, difflib's post-scan extension
loops never fire (the scan already records maximal runs). -/
def findLongestMatch (a b : List Char) : Nat × Nat × Nat :=
  (List.range a.length).foldl
    (fun best i =>
      (List.range b.length).foldl
        (fun best j =>
          let k := runLen a b i j
          if best.2.2 < k then (i + 1 - k, j + 1 - k, k) else best)
        best)
    (0, 0, 0)

/-- Total size of difflib's matching blocks (`get_matching_blocks`):
take the longest match of the current window and recurse on the two
remaining corners.  The recursion is driven by fuel; every recursive
call strictly shrinks the first list, so `|a| + 1` units of fuel always
suffice (`smMatchesAux_congr` below proves the fuel is irrelevant once
it exceeds `|a|`).  difflib only queues the left corner when
`alo < i ∧ blo < j` and the right corner when `i+k < ahi ∧ j+k < bhi`,
which the two `if`s mirror. -/
def smMatchesAux : Nat → List Char → List Char → Nat
  | 0, _, _ => 0
  | fuel + 1, a, b =>
    match findLongestMatch a b with
    | (i, j, k) =>
      if k = 0 then 0
      else
        k + (if 0 < i ∧ 0 < j then smMatchesAux fuel (a.take i) (b.take j) else 0)
          + (if i + k < a.length ∧ j + k < b.length then
              smMatchesAux fuel (a.drop (i + k)) (b.drop (j + k)) else 0)

/-- Total number of matched elements between `a` and `b`, i.e.
`sum(size for _, _, size in SequenceMatcher(None, a, b).get_matching_blocks())`. -/
def smMatches (a b : List Char) : Nat := smMatchesAux (a.length + 1) a b

/-- Model of `SequenceMatcher.ratio()`: `2*M/T` where `M` is the matched total
and `T` the combined length; difflib's `_calculate_ratio` returns `1.0`
when `T = 0`.  Python's floats are modelled as exact rationals. -/
def simScore (a b : List Char) : ℚ :=
  if a.length + b.length = 0 then 1
  else 2 * (smMatches a b : ℚ) / (a.length + b.length)

/-- The ratio `deduplicate_stories` computes for a candidate `story`
against an already-kept story:
`SequenceMatcher(None, story["title"].lower(), kept["title"].lower()).ratio()`. -/
def titleSimilarity (story kept : Story) : ℚ :=
  simScore (pyLower story.title).data (pyLower kept.title).data

/-- Constant `MAX_NEWS = 10`. -/
def MAX_NEWS : Nat := 10

/-- Constant `TITLE_SIMILARITY_THRESHOLD = 0.6` (the Python float literal,
modelled as the exact rational it denotes in the comparisons made). -/
def TITLE_SIMILARITY_THRESHOLD : ℚ := 0.6

/-- The `dominated` test of `deduplicate_stories`: some already-kept
story has title similarity strictly above the threshold (the inner
`for kept in unique` loop with its early `break`). -/
def isDominated (story : Story) (unique : List Story) : Bool :=
  unique.any fun kept =>
    decide (TITLE_SIMILARITY_THRESHOLD < titleSimilarity story kept)

/-- The story loop of `deduplicate_stories`: `unique` is the
accumulator; a non-dominated story is appended; after each iteration
the loop breaks once `len(unique) >= MAX_NEWS`. -/
def dedupGo : List Story → List Story → List Story
  | unique, [] => unique
  | unique, story :: rest =>
    let unique' := if isDominated story unique then unique else unique ++ [story]
    if MAX_NEWS ≤ unique'.length then unique' else dedupGo unique' rest

/-- Embedding of `deduplicate_stories`: remove near-duplicate stories by title
similarity, keep top N. -/
def deduplicate_stories (stories : List Story) : List Story :=
  dedupGo [] stories

/-- The pairwise relation guaranteed between an earlier-kept and a
later-kept story: the later one's similarity to the earlier one is at
most the threshold. -/
def keptRel (a b : Story) : Prop :=
  titleSimilarity b a ≤ TITLE_SIMILARITY_THRESHOLD

/-!
### Response normalization (`call_llm`, lines 199-203)

```
text = re.sub(r"^```(?:html)?\s*\n?", "", text.strip())
text = re.sub(r"\n?```\s*$", "", text)
return text.strip()
```
-/

/-- Python `\s` / `str.strip` whitespace, restricted to the ASCII range
(space, tab, newline, carriage return, vertical tab, form feed). -/
def pyIsSpace (c : Char) : Bool :=
  c == ' ' || c == '\t' || c == '\n' || c == '\r' ||
    c == Char.ofNat 11 || c == Char.ofNat 12

/-- Python `str.strip()`: drop leading and trailing whitespace. -/
def pyStrip (cs : List Char) : List Char :=
  ((cs.dropWhile pyIsSpace).reverse.dropWhile pyIsSpace).reverse

/-- The three-backtick code-fence marker. -/
def fence : List Char := "```".data

/-- Model of `re.sub(r"^```(?:html)?\s*\n?", "", ·)`: the pattern is anchored, so
at most one match is removed; after the backticks an optional literal
`html` is consumed, and since `\n` is in `\s`, the greedy `\s*` followed
by `\n?` consumes exactly the maximal whitespace run. -/
def dropFenceStart (cs : List Char) : List Char :=
  if fence.isPrefixOf cs then
    let r1 := cs.drop 3
    let r2 := if ("html".data).isPrefixOf r1 then r1.drop 4 else r1
    r2.dropWhile pyIsSpace
  else cs

/-- Suffix shape `` ```\s*$ ``: backticks followed by whitespace only
(`$` adds no further matches beyond the greedy all-whitespace suffix). -/
def fenceThenWs (cs : List Char) : Bool :=
  fence.isPrefixOf cs && (cs.drop 3).all pyIsSpace

/-- Whether `\n?```\s*$` matches at this position: a leading newline is
consumed greedily when present (if the tail then fails there is no
backtracking alternative, since a position starting with `\n` cannot
also start with a backtick). -/
def fenceEndMatch (cs : List Char) : Bool :=
  match cs with
  | [] => false
  | c :: rest => if c = '\n' then fenceThenWs rest else fenceThenWs cs

/-- Model of `re.sub(r"\n?```\s*$", "", ·)`: remove the leftmost (hence unique,
as every match extends to the end) match of the trailing-fence pattern. -/
def dropFenceEnd : List Char → List Char
  | [] => []
  | c :: rest => if fenceEndMatch (c :: rest) then [] else c :: dropFenceEnd rest

/-- Whether the trailing-fence pattern matches anywhere in the string. -/
def hasFenceEndMatch : List Char → Bool
  | [] => false
  | c :: rest => fenceEndMatch (c :: rest) || hasFenceEndMatch rest

/-- The normalization `call_llm` applies to every LLM response: strip,
remove a leading fence marker (with optional `html` hint), remove a
trailing fence marker, strip again. -/
def normalizeText (cs : List Char) : List Char :=
  pyStrip (dropFenceEnd (dropFenceStart (pyStrip cs)))

/-- String-level wrapper of `normalizeText`. -/
def normalize (s : String) : String := ⟨normalizeText s.data⟩

/-!
### Two-phase generation pipeline

The generation service (`genai` client + model + temperature) is the
external collaborator `Generate(systemInstruction, userContent) ->
(text, err)`; a raised exception is modelled as `Except.error`.
Prompt texts are reproduced at margin zero: in the source they are
built by `textwrap.dedent` over f-strings, and no claim inspects the
prompt text itself.  Python's module-level constants follow.
-/

/-- The generation-service collaborator. -/
def GenService : Type := String → String → Except String String

/-- Constant `GOLDEN_RULE`. -/
def GOLDEN_RULE : String :=
  "ABSOLUTE RULE — You must NEVER use the real names Jeremy, James, Richard, or Chris (or any obvious reference to them). The characters are ONLY referred to by their code names: THE APE, SLOWWORM, THE HAMSTER, and THE MONKEY. Breaking this rule is instant disqualification."

/-- Constant `PERSONAS` (a dict, insertion-ordered as in CPython). -/
def PERSONAS : List (String × String) :=
  [("THE APE", "Loud, aggressive, obsessed with POWER. Hates regulations. Frequently shouts single words in capitals. Thinks every rule change is a conspiracy against proper racing."),
   ("SLOWWORM", "Pedantic know-it-all. Loves citing historical precedents and obscure regulations. Speaks in long, meandering sentences. Will always find a way to mention a 1970s Grand Prix."),
   ("THE HAMSTER", "Excitable, high-pitched energy. Loves drama, crashes, and anything that goes wrong. Uses far too many exclamation marks. Gets distracted easily."),
   ("THE MONKEY", "Technical driver at heart. Obsessed with \x27skids\x27, steering feel, and the sensation of driving. Judges every situation through the lens of car control and throttle response.")]

/-- Constant `MONOLITH_SVG`. -/
def MONOLITH_SVG : String :=
  "<svg viewBox=\"0 0 800 160\" xmlns=\"http://www.w3.org/2000/svg\"><g fill=\"none\" stroke=\"#F5F5F5\" stroke-width=\"0.5\" stroke-opacity=\"0.7\"><path d=\"M100 130 L150 125 L350 110 L580 115 L680 100 L740 100 L750 135 Z\" /><circle cx=\"180\" cy=\"135\" r=\"28\" /> <circle cx=\"180\" cy=\"135\" r=\"12\" /><circle cx=\"640\" cy=\"135\" r=\"30\" /> <circle cx=\"640\" cy=\"135\" r=\"14\" /><path d=\"M400 110 Q450 60 500 105\" /><path d=\"M700 80 H750 V100 H700 Z\" /><path d=\"M50 135 Q80 145 120 140\" stroke-dasharray=\"2,2\" /></g></svg>"

/-- The `persona_block` of `_build_drafter_system_prompt`. -/
def persona_block : String :=
  String.intercalate "\n" (PERSONAS.map fun p => "- **" ++ p.1 ++ "**: " ++ p.2)

/-- Embedding of `_build_drafter_system_prompt()` (Phase A system instruction). -/
def build_drafter_system_prompt : String := String.intercalate "\n"
  [ "PROJECT MONOLITH — THE PADDOCK PUB CHAT"
  , "======================================="
  , "Role: You are a Lead Creative Developer at a Tier-1 Luxury"
  , "Automotive Journal. Transform raw F1 news and \"Pub Chat\" dialogue"
  , "into a high-fidelity, technical editorial spread rendered as clean"
  , "HTML fragments."
  , ""
  , "## Characters"
  , persona_block
  , "Maintain their distinct voices (Ape = Raw/Loud, Slowworm = Academic/"
  , "Verbose, Hamster = Chaotic/Energetic, Monkey = Sensory/Poetic)."
  , ""
  , "## " ++ GOLDEN_RULE
  , ""
  , "## 1. Visual Hierarchy & Design System"
  , "Output ONLY clean HTML fragments — no <html>, <head>, or <body>."
  , ""
  , "A. MASTHEAD"
  , "   Start the output with this EXACT SVG (the 2026 Technical"
  , "   Wireframe Blueprint) — copy it verbatim, do NOT modify it:"
  , "   " ++ MONOLITH_SVG
  , ""
  , "B. SUB-HEADER"
  , "   Immediately after the SVG, a monospaced meta-data block:"
  , "   <p><code>STATUS: CRITICAL INTEL &nbsp;|&nbsp; CLASSIFICATION: PADDOCK EYES ONLY</code></p>"
  , ""
  , "C. SECTION HEADERS"
  , "   Use <h1> and <h3> in ALL CAPS for all section titles."
  , ""
  , "D. CONTRIBUTOR NAMES"
  , "   Character names must be in <em>italics</em> ONLY — never bold."
  , "   This maintains a quiet, luxury aesthetic. Example:"
  , "   <em>The Ape</em>, <em>Slowworm</em>, <em>The Hamster</em>,"
  , "   <em>The Monkey</em>."
  , ""
  , "E. SECTION BREAKS"
  , "   Use <hr> to separate the masthead, quote, dialogue table,"
  , "   top six, and weather sections."
  , ""
  , "## 2. Content Sections (in order)"
  , ""
  , "A. QUOTE OF THE DAY"
  , "   One standout <blockquote> — the single most memorable line:"
  , "   <blockquote>\"Quote text\" — <em>Character Name</em></blockquote>"
  , ""
  , "B. THE PADDOCK PUB CHAT"
  , "   <h1> heading in ALL CAPS. Render dialogue as an HTML <table>:"
  , "   - Column 1: <em>Character Name</em> (italics, title case)"
  , "   - Column 2: Open with a high-impact summary in quotes, then"
  , "     the synthesis of their argument."
  , "   This is the main roundtable about the biggest news story."
  , "   Make it feel like an overheard pub conversation — interruptions,"
  , "   insults, running gags."
  , ""
  , "C. THE WISE MEN\x27S TOP SIX"
  , "   <h1> heading. Numbered list (<ol><li>) implying a definitive"
  , "   hierarchy. Each character gives ONE pick with a one-sentence"
  , "   justification. Two remaining picks are consensus."
  , ""
  , "D. WEATHER SPLASH"
  , "   <h1> heading. A short, funny reaction to the provided weather"
  , "   forecast — each character gets one line."
  , ""
  , "## 3. Technical Anchors & Formatting"
  , "- Bold key engineering terms with <strong> to create visual anchors"
  , "  (e.g. <strong>350kW MGU-K</strong>, <strong>Active Aero</strong>,"
  , "  <strong>-30kg Weight</strong>, <strong>ground effect</strong>)."
  , "- Units: Render as plain text — 5°C or 18%%, never LaTeX."
  , "- Character names: ALWAYS <em>italics</em>, NEVER <strong>."
  , ""
  , "## 4. Constraints"
  , "Keep the TOTAL output around 500–600 words. Be funny, sharp, and"
  , "irreverent — but never cruel toward real people."
  , "" ]

/-- Constant `editor_prompt` of `phase_b_edit` (Phase B system instruction). -/
def editor_system_prompt : String := String.intercalate "\n"
  [ "You are the senior editor for \"The Paddock Pub Chat\" — a Tier-1"
  , "luxury automotive editorial. Polish the raw draft into a"
  , "publication-ready Monolith Protocol layout."
  , ""
  , "## Rules"
  , "1. " ++ GOLDEN_RULE
  , "2. Total length must be ~500–600 words. Cut ruthlessly if needed."
  , "3. Each character must sound DISTINCT — if two sound alike, sharpen"
  , "   their voices."
  , "4. Output clean HTML fragments only. No markdown, no <html>/<body>."
  , ""
  , "## Monolith Layout Checklist — enforce ALL of these:"
  , "- MASTHEAD: The SVG wireframe blueprint MUST be the very first"
  , "  element. If missing, inject it. Do NOT modify the SVG."
  , "- SUB-HEADER: <p><code>STATUS: CRITICAL INTEL ...</code></p>"
  , "  immediately after the SVG."
  , "- QUOTE OF THE DAY: Exactly one <blockquote> with the best line:"
  , "  <blockquote>\"Quote\" — <em>Character Name</em></blockquote>"
  , "- PUB CHAT section: <h1> ALL CAPS heading. Dialogue in an HTML"
  , "  <table> (col 1 = <em>Character Name</em> in italics,"
  , "  col 2 = high-impact summary in quotes then argument)."
  , "- TOP SIX section: <h1> ALL CAPS heading with <ol><li> numbered"
  , "  list."
  , "- WEATHER SPLASH: <h1> ALL CAPS heading, one line per character."
  , "- <hr> separators between every major content block."
  , "- <strong> tags on key engineering terms (<strong>Active Aero</strong>,"
  , "  <strong>ground effect</strong>, <strong>MGU-K</strong>, etc.)"
  , "  as visual anchors."
  , "- Units rendered as plain text: 5°C, 18%%, never LaTeX."
  , "- Character names ALWAYS in <em>italics</em>, NEVER <strong>."
  , "  This is critical for the quiet luxury aesthetic."
  , "5. Fix any factual howlers, but keep the satire and humour."
  , "6. All three sections must be present:"
  , "   \"The Paddock Pub Chat\", \"The Wise Men\x27s Top Six\","
  , "   \"Weather Splash\"."
  , "" ]

/-- Embedding of `call_llm`: send one request to the generation service (model name
and temperature live inside the collaborator) and normalize the
response text. -/
def call_llm (svc : GenService) (system_prompt user_content : String) :
    Except String String :=
  (svc system_prompt user_content).map normalize

/-- The context payload: `fetch_weather`'s dict.  Both the success and
the error branch always include the `location` key, and Phase A only
uses the payload through `weather.get('location', ...)` and
`json.dumps(weather, indent=2)`; the latter opaque serialization is
carried as the `serialized` field. -/
structure Weather where
  location : String
  serialized : String

/-- Python `s[:200]` (code-point slicing). -/
def pyTruncate (n : Nat) (s : String) : String := ⟨s.data.take n⟩

/-- One line of Phase A's news block:
`f"- [{s['title']}]({s['link']}): {s['summary'][:200]}"`. -/
def story_line (s : Story) : String :=
  "- [" ++ s.title ++ "](" ++ s.link ++ "): " ++ pyTruncate 200 s.summary

/-- The `news_block` join: `"\n".join(...)`. -/
def news_block (news : List Story) : String :=
  String.intercalate "\n" (news.map story_line)

/-- Phase A user content (the dedented f-string of `phase_a_draft`). -/
def phase_a_user_content (news : List Story) (weather : Weather) : String :=
  "## This week\x27s F1 news\n" ++ news_block news ++
    "\n\n## Weather forecast for " ++ weather.location ++ "\n" ++
    weather.serialized ++ "\n\nNow write the newsletter.\n"

/-- Phase B user content: `f"## DRAFT TO EDIT\n\n{draft}"`. -/
def phase_b_user_content (draft : String) : String :=
  "## DRAFT TO EDIT\n\n" ++ draft

/-- Embedding of `phase_a_draft`: generate the raw newsletter draft. -/
def phase_a_draft (svc : GenService) (news : List Story) (weather : Weather) :
    Except String String :=
  call_llm svc build_drafter_system_prompt (phase_a_user_content news weather)

/-- Embedding of `phase_b_edit`: QA pass over the draft. -/
def phase_b_edit (svc : GenService) (draft : String) : Except String String :=
  call_llm svc editor_system_prompt (phase_b_user_content draft)

/-- Python `html.escape` (with quotes), applied code point by code point. -/
def html_escape_char (c : Char) : String :=
  if c = '&' then "&amp;"
  else if c = '<' then "&lt;"
  else if c = '>' then "&gt;"
  else if c = '"' then "&quot;"
  else if c = Char.ofNat 39 then "&#x27;"
  else ⟨[c]⟩

/-- Python `html.escape`. -/
def html_escape (s : String) : String :=
  String.join (s.data.map html_escape_char)

/-- Constant `VOTING_FOOTER`. -/
def VOTING_FOOTER : String := String.intercalate "\n"
  [ "<div style=\"text-align:center; margin-top:40px; padding:20px;"
  , "            border-top:2px solid #e10600;\">"
  , "  <p style=\"font-size:18px; font-weight:bold; color:#1a1a2e;\">"
  , "    Rate this issue"
  , "  </p>"
  , "  <a href=\"https://api.prixsix.com/vote?type=love\""
  , "     style=\"display:inline-block; margin:8px 12px; padding:12px 28px;"
  , "            background:#00d200; color:#fff; text-decoration:none;"
  , "            border-radius:6px; font-weight:bold; font-size:16px;\">"
  , "    &#127937; Chequered Flag (Love it)"
  , "  </a>"
  , "  <a href=\"https://api.prixsix.com/vote?type=hate\""
  , "     style=\"display:inline-block; margin:8px 12px; padding:12px 28px;"
  , "            background:#e10600; color:#fff; text-decoration:none;"
  , "            border-radius:6px; font-weight:bold; font-size:16px;\">"
  , "    &#x1F3F4; Black Flag (Disqualified)"
  , "  </a>"
  , "</div>"
  , "" ]

/-- Embedding of `build_html`: wrap the newsletter body in a full HTML document.
`date_str` (Python: `datetime.date.today().strftime(...)`) is an
ambient input and is threaded explicitly. -/
def build_html (date_str : String) (body_html : String) : String :=
  String.intercalate "\n"
    [ "<!DOCTYPE html>"
    , "<html lang=\"en\">"
    , "<head>"
    , "<meta charset=\"utf-8\">"
    , "<meta name=\"viewport\" content=\"width=device-width, initial-scale=1\">"
    , "<title>The Paddock Pub Chat — " ++ html_escape date_str ++ "</title>"
    , "<style>"
    , "  body \x7b"
    , "    max-width: 680px; margin: 0 auto; padding: 24px;"
    , "    font-family: Georgia, \x27Times New Roman\x27, serif;"
    , "    background: #f9f9f9; color: #1a1a2e; line-height: 1.6;"
    , "  \x7d"
    , "  h1 \x7b"
    , "    text-align: center; color: #e10600;"
    , "    border-bottom: 3px solid #e10600; padding-bottom: 8px;"
    , "  \x7d"
    , "  h3 \x7b color: #15151e; margin-top: 28px; \x7d"
    , "  b \x7b color: #e10600; \x7d"
    , "  ul \x7b padding-left: 20px; \x7d"
    , "  li \x7b margin-bottom: 6px; \x7d"
    , "  .date \x7b text-align: center; color: #666; font-size: 14px; \x7d"
    , "</style>"
    , "</head>"
    , "<body>"
    , "<h1>&#127937; The Paddock Pub Chat</h1>"
    , "<p class=\"date\">" ++ html_escape date_str ++ "</p>"
    , body_html
    , VOTING_FOOTER
    , "</body>"
    , "</html>"
    , "" ]

/-- Constant `OUTPUT_PATH` (Python joins it onto the script's directory, an
ambient value; the constant file name is kept). -/
def OUTPUT_PATH : String := "prix_six_chat.html"

/-- Externally visible side effects of a run: the HTML file write and
the Firestore (persistence) write.  `write_to_firestore` swallows its
collaborator's errors (non-fatal), so only the attempt is recorded. -/
inductive Effect where
  | writeFile (path content : String)
  | firestoreSet (collection doc content : String)
deriving DecidableEq

/-- Outcome of `main` from deduplication onwards: the final text (or
the propagated generation error), the generation-service calls made in
order, and the external write effects performed. -/
structure RunResult where
  result : Except String String
  llmCalls : List (String × String)
  effects : List Effect

/-- Embedding of `main`, from `deduplicate_stories` onwards.  Weather and raw news
arrive from the fetch collaborators; an uncaught exception from either
phase aborts the run before any write.  The `llmCalls` field records
the generation-service invocations `main` triggers, in order. -/
def runMain (svc : GenService) (date_str : String) (weather : Weather)
    (raw_news : List Story) : RunResult :=
  let news := deduplicate_stories raw_news
  let userA := phase_a_user_content news weather
  match phase_a_draft svc news weather with
  | Except.error e =>
      ⟨Except.error e, [(build_drafter_system_prompt, userA)], []⟩
  | Except.ok draft =>
    match phase_b_edit svc draft with
    | Except.error e =>
        ⟨Except.error e,
         [(build_drafter_system_prompt, userA),
          (editor_system_prompt, phase_b_user_content draft)], []⟩
    | Except.ok polished =>
        ⟨Except.ok polished,
         [(build_drafter_system_prompt, userA),
          (editor_system_prompt, phase_b_user_content draft)],
         [Effect.writeFile OUTPUT_PATH (build_html date_str polished),
          Effect.firestoreSet "app-settings" "pub-chat" polished]⟩

/-!
### Concrete inputs used by counterexamples and witnesses
-/

/-- An empty-titled story (first in input order). -/
def storyEmptyA : Story := ⟨"", "first empty-titled item", "https://a.example/1", "SourceA"⟩

/-- A second, unrelated empty-titled story. -/
def storyEmptyB : Story := ⟨"", "second empty-titled item", "https://b.example/2", "SourceB"⟩

/-- A distinctly-titled story for witness inputs. -/
def storyPlain : Story := ⟨"ferrari announce new sponsor", "", "https://c.example/3", "SourceC"⟩

/-- Boundary pair: titles with similarity exactly `0.6` (3 matched
characters, combined length 10). -/
def storyBoundA : Story := ⟨"abcxx", "", "", "S1"⟩

/-- See `storyBoundA`. -/
def storyBoundB : Story := ⟨"abcyy", "", "", "S2"⟩

/-- Above-threshold pair: titles with similarity `0.8 > 0.6`. -/
def storyOverA : Story := ⟨"abcdx", "", "", "S3"⟩

/-- See `storyOverA`. -/
def storyOverB : Story := ⟨"abcdy", "", "", "S4"⟩

/-- A generation service that always fails. -/
def svcFail : GenService := fun _ _ => Except.error "generation failure"

/-- A concrete weather payload. -/
def weatherW : Weather := ⟨"Silverstone", "\x7b \x22days\x22: [] \x7d"⟩

/-- Nested-fence input on which normalization is not idempotent. -/
def c8input : String := "```\n```html\nfoo"

/-- A fenced input whose normalized form is fence-free. -/
def c8good : String := "```html\nhi\n```"


theorem runLen_le_left (a b : List Char) : ∀ i j, runLen a b i j ≤ i + 1 := by
  intro i
  induction i with
  | zero =>
    intro j
    simp only [runLen]
    split
    · split <;> omega
    · omega
  | succ i ih =>
    intro j
    cases j with
    | zero =>
      simp only [runLen]
      split
      · split <;> omega
      · omega
    | succ j =>
      simp only [runLen]
      split
      · split
        · have := ih j; omega
        · omega
      · omega

theorem runLen_le_right (a b : List Char) : ∀ i j, runLen a b i j ≤ j + 1 := by
  intro i
  induction i with
  | zero =>
    intro j
    simp only [runLen]
    split
    · split <;> omega
    · omega
  | succ i ih =>
    intro j
    cases j with
    | zero =>
      simp only [runLen]
      split
      · split <;> omega
      · omega
    | succ j =>
      simp only [runLen]
      split
      · split
        · have := ih j; omega
        · omega
      · omega

theorem foldl_preserve {α β : Type} {P : β → Prop} (f : β → α → β) :
    ∀ (l : List α) (init : β), P init →
      (∀ acc x, x ∈ l → P acc → P (f acc x)) → P (l.foldl f init) := by
  intro l
  induction l with
  | nil => intro init h _; exact h
  | cons x xs ih =>
    intro init h hstep
    exact ih _ (hstep init x (by simp) h)
      (fun acc y hy => hstep acc y (by simp [hy]))

/-- The best triple maintained by `find_longest_match` always denotes a
block inside both strings: `besti + bestsize ≤ |a|` and
`bestj + bestsize ≤ |b|` (whenever a block was recorded at all). -/
theorem findLongestMatch_bounds (a b : List Char) :
    (findLongestMatch a b).2.2 ≠ 0 →
    (findLongestMatch a b).1 + (findLongestMatch a b).2.2 ≤ a.length ∧
    (findLongestMatch a b).2.1 + (findLongestMatch a b).2.2 ≤ b.length := by
  unfold findLongestMatch
  apply foldl_preserve
    (P := fun best : Nat × Nat × Nat =>
      best.2.2 ≠ 0 → best.1 + best.2.2 ≤ a.length ∧ best.2.1 + best.2.2 ≤ b.length)
  · intro h; exact absurd rfl h
  · intro acc i hi hacc
    apply foldl_preserve
      (P := fun best : Nat × Nat × Nat =>
        best.2.2 ≠ 0 → best.1 + best.2.2 ≤ a.length ∧ best.2.1 + best.2.2 ≤ b.length)
    · exact hacc
    · intro acc' j hj hacc'
      by_cases hlt : acc'.2.2 < runLen a b i j
      · show (if acc'.2.2 < runLen a b i j then
            (i + 1 - runLen a b i j, j + 1 - runLen a b i j, runLen a b i j)
          else acc').2.2 ≠ 0 → _
        rw [if_pos hlt]
        intro _
        have hia : i < a.length := List.mem_range.mp hi
        have hjb : j < b.length := List.mem_range.mp hj
        have h1 := runLen_le_left a b i j
        have h2 := runLen_le_right a b i j
        constructor <;> simp only [] <;> omega
      · show (if acc'.2.2 < runLen a b i j then
            (i + 1 - runLen a b i j, j + 1 - runLen a b i j, runLen a b i j)
          else acc').2.2 ≠ 0 → _
        rw [if_neg hlt]
        exact hacc'

/-- Fuel does not matter for `smMatchesAux` once it exceeds the length
of the first sequence: each recursive call strictly shrinks the first
sequence, so `smMatches` (fuel `|a| + 1`) computes difflib's recursion
exactly. -/
theorem smMatchesAux_congr :
    ∀ (f g : Nat) (a b : List Char), a.length < f → a.length < g →
      smMatchesAux f a b = smMatchesAux g a b := by
  intro f
  induction f with
  | zero => intro g a b hf; exact absurd hf (Nat.not_lt_zero _)
  | succ f ih =>
    intro g a b hf hg
    cases g with
    | zero => exact absurd hg (Nat.not_lt_zero _)
    | succ g =>
      simp only [smMatchesAux]
      rcases hm : findLongestMatch a b with ⟨i, j, k⟩
      by_cases hk : k = 0
      · simp [hk]
      · have hb := findLongestMatch_bounds a b
        rw [hm] at hb
        simp only [ne_eq] at hb
        obtain ⟨hia, hjb⟩ := hb hk
        have hx : smMatchesAux f (a.take i) (b.take j) =
            smMatchesAux g (a.take i) (b.take j) := by
          apply ih <;> simp only [List.length_take] <;> omega
        have hy : smMatchesAux f (a.drop (i + k)) (b.drop (j + k)) =
            smMatchesAux g (a.drop (i + k)) (b.drop (j + k)) := by
          apply ih <;> simp only [List.length_drop] <;> omega
        simp only [hk, if_false, hx, hy]

/-- Evaluation of `smMatchesAux` with any sufficient fuel equals `smMatches`. -/
theorem smMatches_fuel (f : Nat) (a b : List Char) (h : a.length < f) :
    smMatchesAux f a b = smMatches a b :=
  smMatchesAux_congr f (a.length + 1) a b h (Nat.lt_succ_self _)

theorem dedupGo_append :
    ∀ (rest unique : List Story),
      ∃ t, dedupGo unique rest = unique ++ t ∧ t.Sublist rest := by
  intro rest
  induction rest with
  | nil => intro unique; exact ⟨[], by simp [dedupGo], List.nil_sublist _⟩
  | cons story rest ih =>
    intro unique
    by_cases hdom : isDominated story unique
    · by_cases hbrk : MAX_NEWS ≤ unique.length
      · exact ⟨[], by simp [dedupGo, hdom, hbrk], List.nil_sublist _⟩
      · obtain ⟨t, ht, hs⟩ := ih unique
        exact ⟨t, by simp [dedupGo, hdom, hbrk, ht], List.Sublist.cons _ hs⟩
    · by_cases hbrk : MAX_NEWS ≤ unique.length + 1
      · refine ⟨[story], by simp [dedupGo, hdom, hbrk], ?_⟩
        exact List.Sublist.cons₂ _ (List.nil_sublist _)
      · obtain ⟨t, ht, hs⟩ := ih (unique ++ [story])
        refine ⟨story :: t, ?_, List.Sublist.cons₂ _ hs⟩
        simp only [dedupGo, hdom, if_false, Bool.false_eq_true]
        rw [if_neg (by simpa using hbrk), ht]
        simp

theorem dedupGo_length_le :
    ∀ (rest unique : List Story), unique.length < MAX_NEWS →
      (dedupGo unique rest).length ≤ MAX_NEWS := by
  intro rest
  induction rest with
  | nil => intro unique h; simpa [dedupGo] using h.le
  | cons story rest ih =>
    intro unique h
    by_cases hdom : isDominated story unique
    · have hbrk : ¬ MAX_NEWS ≤ unique.length := not_le.mpr h
      simpa [dedupGo, hdom, hbrk] using ih unique h
    · by_cases hbrk : MAX_NEWS ≤ unique.length + 1
      · simp [dedupGo, hdom, hbrk]
        omega
      · have h' : (unique ++ [story]).length < MAX_NEWS := by
          simpa using not_le.mp hbrk
        simpa [dedupGo, hdom, hbrk] using ih _ h'

theorem dedupGo_pairwise :
    ∀ (rest unique : List Story), unique.Pairwise keptRel →
      (dedupGo unique rest).Pairwise keptRel := by
  intro rest
  induction rest with
  | nil => intro unique h; simpa [dedupGo] using h
  | cons story rest ih =>
    intro unique h
    by_cases hdom : isDominated story unique
    · by_cases hbrk : MAX_NEWS ≤ unique.length
      · simpa [dedupGo, hdom, hbrk] using h
      · simpa [dedupGo, hdom, hbrk] using ih unique h
    · have hnew : (unique ++ [story]).Pairwise keptRel := by
        rw [List.pairwise_append]
        refine ⟨h, List.pairwise_singleton _ _, ?_⟩
        intro a ha b hb
        have hb' : b = story := by simpa using hb
        have hall : ∀ kept ∈ unique,
            ¬ TITLE_SIMILARITY_THRESHOLD < titleSimilarity story kept := by
          simpa [isDominated, List.any_eq_false, decide_eq_true_eq]
            using hdom
        rw [hb']
        exact not_lt.mp (hall a ha)
      by_cases hbrk : MAX_NEWS ≤ unique.length + 1
      · simpa [dedupGo, hdom, hbrk] using hnew
      · simpa [dedupGo, hdom, hbrk] using ih _ hnew

theorem dedupGo_fix :
    ∀ (rest unique : List Story),
      (unique ++ rest).Pairwise keptRel →
      (unique ++ rest).length ≤ MAX_NEWS →
      dedupGo unique rest = unique ++ rest := by
  intro rest
  induction rest with
  | nil => intro unique _ _; simp [dedupGo]
  | cons story rest ih =>
    intro unique hp hl
    have hdom : isDominated story unique = false := by
      rw [List.pairwise_append] at hp
      simp only [isDominated, List.any_eq_false, decide_eq_true_eq]
      intro kept hk
      exact not_lt.mpr (hp.2.2 kept hk story (by simp))
    by_cases hbrk : MAX_NEWS ≤ unique.length + 1
    · have hrest : rest = [] := by
        simp only [List.length_append, List.length_cons] at hl
        have : rest.length = 0 := by omega
        exact List.length_eq_zero.mp this
      subst hrest
      simp [dedupGo, hdom, hbrk]
    · have hp' : ((unique ++ [story]) ++ rest).Pairwise keptRel := by
        simpa [List.append_assoc] using hp
      have hl' : ((unique ++ [story]) ++ rest).length ≤ MAX_NEWS := by
        simpa [List.append_assoc] using hl
      have hres := ih (unique ++ [story]) hp' hl'
      simp [dedupGo, hdom, hbrk, hres, List.append_assoc]


theorem dropWhile_self {α : Type} (p : α → Bool) :
    ∀ l : List α, (l.dropWhile p).dropWhile p = l.dropWhile p := by
  intro l
  induction l with
  | nil => rfl
  | cons a l ih =>
    by_cases h : p a
    · simp [List.dropWhile_cons, h, ih]
    · simp [List.dropWhile_cons, h]

theorem dropWhile_suffix_exists {α : Type} (p : α → Bool) :
    ∀ l : List α, ∃ t, l = t ++ l.dropWhile p := by
  intro l
  induction l with
  | nil => exact ⟨[], rfl⟩
  | cons a l ih =>
    by_cases h : p a
    · obtain ⟨t, ht⟩ := ih
      refine ⟨a :: t, ?_⟩
      simp only [List.dropWhile_cons, h, if_true]
      simpa using ht
    · exact ⟨[], by simp [List.dropWhile_cons, h]⟩

theorem dropWhile_head_false {α : Type} {p : α → Bool} {a : α} {l : List α}
    (h : List.dropWhile p (a :: l) = a :: l) : p a = false := by
  rw [List.dropWhile_eq_self_iff] at h
  simpa using h (by simp)

theorem pyStrip_idem (cs : List Char) : pyStrip (pyStrip cs) = pyStrip cs := by
  have hu : List.dropWhile pyIsSpace (cs.dropWhile pyIsSpace) =
      cs.dropWhile pyIsSpace := dropWhile_self _ _
  unfold pyStrip
  obtain ⟨t, ht⟩ := dropWhile_suffix_exists pyIsSpace (cs.dropWhile pyIsSpace).reverse
  have hu2 : cs.dropWhile pyIsSpace =
      ((cs.dropWhile pyIsSpace).reverse.dropWhile pyIsSpace).reverse ++ t.reverse := by
    have hr := congrArg List.reverse ht
    simpa [List.reverse_append] using hr
  have hv1 : List.dropWhile pyIsSpace
      ((cs.dropWhile pyIsSpace).reverse.dropWhile pyIsSpace).reverse =
      ((cs.dropWhile pyIsSpace).reverse.dropWhile pyIsSpace).reverse := by
    cases hv : ((cs.dropWhile pyIsSpace).reverse.dropWhile pyIsSpace).reverse with
    | nil => rfl
    | cons c v' =>
      have hc : pyIsSpace c = false := by
        apply dropWhile_head_false (p := pyIsSpace) (l := v' ++ t.reverse)
        rw [← List.cons_append, ← hv, ← hu2]
        exact hu
      simp [List.dropWhile_cons, hc]
  have hv2 : List.dropWhile pyIsSpace
      ((cs.dropWhile pyIsSpace).reverse.dropWhile pyIsSpace).reverse.reverse =
      ((cs.dropWhile pyIsSpace).reverse.dropWhile pyIsSpace).reverse.reverse := by
    rw [List.reverse_reverse]
    exact dropWhile_self _ _
  rw [hv1, hv2]
  simp

theorem dropFenceEnd_of_no_match :
    ∀ cs : List Char, hasFenceEndMatch cs = false → dropFenceEnd cs = cs := by
  intro cs
  induction cs with
  | nil => intro _; rfl
  | cons c rest ih =>
    intro h
    simp only [hasFenceEndMatch, Bool.or_eq_false_iff] at h
    simp only [dropFenceEnd, h.1, if_false, Bool.false_eq_true]
    rw [ih h.2]


/-- C3: For every input list of SourceItems, the output of Deduplicate
has length at most maxCount (default 10, the MAX_NEWS constant). -/
theorem C3_dedup_cap (stories : List Story) :
    (deduplicate_stories stories).length ≤ MAX_NEWS := by
  have h : ([] : List Story).length < MAX_NEWS := by norm_num [MAX_NEWS]
  simpa [deduplicate_stories] using dedupGo_length_le stories [] h

/-- C4: the output of Deduplicate is a subsequence of the input in the
original relative order. -/
theorem C4_dedup_subsequence (stories : List Story) :
    (deduplicate_stories stories).Sublist stories := by
  obtain ⟨t, ht, hs⟩ := dedupGo_append stories []
  simp only [List.nil_append] at ht
  show (dedupGo [] stories).Sublist stories
  rw [ht]
  exact hs

/-- C5: no two distinct items in the output of Deduplicate have
title-similarity strictly above the threshold (pairwise duplicate-free
under the strict-threshold definition). -/
theorem C5_dedup_pairwise (stories : List Story) :
    (deduplicate_stories stories).Pairwise
      (fun a b => titleSimilarity b a ≤ TITLE_SIMILARITY_THRESHOLD) :=
  dedupGo_pairwise stories [] List.Pairwise.nil

/-- C6: Deduplicate is idempotent. -/
theorem C6_dedup_idempotent (stories : List Story) :
    deduplicate_stories (deduplicate_stories stories) =
      deduplicate_stories stories := by
  have hp : (deduplicate_stories stories).Pairwise keptRel :=
    dedupGo_pairwise stories [] List.Pairwise.nil
  have hl : (deduplicate_stories stories).length ≤ MAX_NEWS := by
    have h : ([] : List Story).length < MAX_NEWS := by norm_num [MAX_NEWS]
    simpa [deduplicate_stories] using dedupGo_length_le stories [] h
  have := dedupGo_fix (deduplicate_stories stories) []
    (by simpa using hp) (by simpa using hl)
  simpa [deduplicate_stories] using this

/-- C10: for a non-empty input the output of Deduplicate is non-empty
and its first element is the first input item. -/
theorem C10_first_kept (s : Story) (rest : List Story) :
    (deduplicate_stories (s :: rest)).head? = some s := by
  have h0 : isDominated s [] = false := rfl
  have s1 : deduplicate_stories (s :: rest) = dedupGo [s] rest := by
    simp [deduplicate_stories, dedupGo, h0, MAX_NEWS]
  obtain ⟨t, ht, _⟩ := dedupGo_append rest [s]
  rw [s1, ht]
  rfl


/-- C7: the duplicate test is a strict comparison: for a two-element
input the second item is dropped exactly when its similarity to the
first strictly exceeds the threshold; concretely, a pair at similarity
exactly 0.6 is kept while a pair at 0.8 is collapsed. -/
theorem C7_threshold_strict :
    (∀ a b : Story,
      deduplicate_stories [a, b] =
        if TITLE_SIMILARITY_THRESHOLD < titleSimilarity b a then [a]
        else [a, b]) ∧
    deduplicate_stories [storyBoundA, storyBoundB] =
      [storyBoundA, storyBoundB] ∧
    deduplicate_stories [storyOverA, storyOverB] = [storyOverA] := by
  have hgen : ∀ a b : Story,
      deduplicate_stories [a, b] =
        if TITLE_SIMILARITY_THRESHOLD < titleSimilarity b a then [a]
        else [a, b] := by
    intro a b
    by_cases h : TITLE_SIMILARITY_THRESHOLD < titleSimilarity b a
    · rw [if_pos h]
      simp [deduplicate_stories, dedupGo, isDominated, MAX_NEWS, h]
    · rw [if_neg h]
      simp [deduplicate_stories, dedupGo, isDominated, MAX_NEWS, h]
  refine ⟨hgen, ?_, ?_⟩
  · rw [hgen]
    have hb : titleSimilarity storyBoundB storyBoundA = 3/5 := by
      norm_num [titleSimilarity, simScore,
        show (pyLower storyBoundB.title).data = "abcyy".data from by decide,
        show (pyLower storyBoundA.title).data = "abcxx".data from by decide,
        show smMatches "abcyy".data "abcxx".data = 3 from by decide]
    rw [if_neg]
    rw [hb]
    norm_num [TITLE_SIMILARITY_THRESHOLD]
  · rw [hgen]
    have hb : titleSimilarity storyOverB storyOverA = 4/5 := by
      norm_num [titleSimilarity, simScore,
        show (pyLower storyOverB.title).data = "abcdy".data from by decide,
        show (pyLower storyOverA.title).data = "abcdx".data from by decide,
        show smMatches "abcdy".data "abcdx".data = 4 from by decide]
    rw [if_pos]
    rw [hb]
    norm_num [TITLE_SIMILARITY_THRESHOLD]

/-- C1 (counterexample): two items whose titles are both empty ARE
collapsed by `deduplicate_stories` — with only two items in the input
(cap far from reached) the second is dropped on account of the first,
because difflib reports ratio 1.0 for two empty strings. -/
theorem C1_counterexample :
    storyEmptyA.title = "" ∧ storyEmptyB.title = "" ∧
    deduplicate_stories [storyEmptyA, storyEmptyB] = [storyEmptyA] := by
  refine ⟨rfl, rfl, ?_⟩
  have hsim : titleSimilarity storyEmptyB storyEmptyA = 1 := by
    norm_num [titleSimilarity, simScore,
      show (pyLower storyEmptyB.title).data = ([] : List Char) from by decide,
      show (pyLower storyEmptyA.title).data = ([] : List Char) from by decide]
  have hone : TITLE_SIMILARITY_THRESHOLD < titleSimilarity storyEmptyB storyEmptyA := by
    rw [hsim]; norm_num [TITLE_SIMILARITY_THRESHOLD]
  simp [deduplicate_stories, dedupGo, isDominated, MAX_NEWS, hone]

/-- C1 (amended): whenever two empty-titled items appear in the input
with the first of them kept ahead of the second, the second is dropped:
deduplicating `a :: b :: rest` equals deduplicating `a :: rest` when
both `a` and `b` have empty titles. -/
theorem C1_amended (a b : Story) (rest : List Story)
    (h1 : a.title = "") (h2 : b.title = "") :
    deduplicate_stories (a :: b :: rest) = deduplicate_stories (a :: rest) := by
  have ha : (pyLower a.title).data = ([] : List Char) := by rw [h1]; decide
  have hb : (pyLower b.title).data = ([] : List Char) := by rw [h2]; decide
  have hsim : titleSimilarity b a = 1 := by
    norm_num [titleSimilarity, simScore, ha, hb]
  have hone : TITLE_SIMILARITY_THRESHOLD < titleSimilarity b a := by
    rw [hsim]; norm_num [TITLE_SIMILARITY_THRESHOLD]
  have hdom : isDominated b [a] = true := by
    simp [isDominated, hone]
  have h0 : ∀ s : Story, isDominated s [] = false := fun _ => rfl
  show dedupGo [] (a :: b :: rest) = dedupGo [] (a :: rest)
  simp [dedupGo, h0, hdom, MAX_NEWS]

/-- C1 (witness): concrete empty-titled items with a third distinct
item; the second empty-titled item is dropped. -/
theorem C1_witness :
    storyEmptyA.title = "" ∧ storyEmptyB.title = "" ∧
    deduplicate_stories [storyEmptyA, storyEmptyB, storyPlain] =
      deduplicate_stories [storyEmptyA, storyPlain] :=
  ⟨rfl, rfl, C1_amended storyEmptyA storyEmptyB [storyPlain] rfl rfl⟩


/-- C8 (counterexample): normalization is not idempotent on every
string: with nested fences, each application strips one fence layer. -/
theorem C8_counterexample :
    normalize c8input = "```html\nfoo" ∧
    normalize (normalize c8input) = "foo" ∧
    normalize (normalize c8input) ≠ normalize c8input := by
  refine ⟨by decide, by decide, by decide⟩

/-- C8 (amended): normalization is idempotent on every string whose
normalized form does not itself begin with a fence marker and has no
trailing-fence match (in particular on every output without nested
fences); nested fences are stripped one layer per application. -/
theorem C8_amended (s : String)
    (h1 : fence.isPrefixOf (normalize s).data = false)
    (h2 : hasFenceEndMatch (normalize s).data = false) :
    normalize (normalize s) = normalize s := by
  have hstrip : pyStrip (normalize s).data = (normalize s).data := by
    show pyStrip (normalizeText s.data) = normalizeText s.data
    unfold normalizeText
    exact pyStrip_idem _
  have hstart : dropFenceStart (normalize s).data = (normalize s).data := by
    simp [dropFenceStart, h1]
  have hend : dropFenceEnd (normalize s).data = (normalize s).data :=
    dropFenceEnd_of_no_match _ h2
  have key : normalizeText (normalize s).data = (normalize s).data := by
    unfold normalizeText
    rw [hstrip, hstart, hend, hstrip]
  show (⟨normalizeText (normalize s).data⟩ : String) = normalize s
  rw [key]

/-- C8 (witness): a well-formed singly-fenced response; its normalized
form is fence-free and a second normalization is a no-op. -/
theorem C8_witness :
    fence.isPrefixOf (normalize c8good).data = false ∧
    hasFenceEndMatch (normalize c8good).data = false ∧
    normalize (normalize c8good) = normalize c8good :=
  ⟨by decide, by decide, C8_amended c8good (by decide) (by decide)⟩

/-- C2: if the generation-service call of either phase fails, the run
yields the propagated error and performs no write effect (no HTML
file write, no Firestore write); in particular no final text — and
never a bare Phase A draft — is returned. -/
theorem C2_fail_closed (svc : GenService) (date_str : String)
    (weather : Weather) (raw_news : List Story) (e : String)
    (h : phase_a_draft svc (deduplicate_stories raw_news) weather =
          Except.error e ∨
        ∃ d, phase_a_draft svc (deduplicate_stories raw_news) weather =
            Except.ok d ∧ phase_b_edit svc d = Except.error e) :
    (runMain svc date_str weather raw_news).result = Except.error e ∧
    (runMain svc date_str weather raw_news).effects = [] := by
  rcases h with h | ⟨d, hA, hB⟩
  · constructor <;> simp [runMain, h]
  · constructor <;> simp [runMain, hA, hB]

/-- C2 (witness): with a failing generation service, Phase A fails and
the run produces the error with an empty effect list. -/
theorem C2_witness :
    (phase_a_draft svcFail (deduplicate_stories []) weatherW =
        Except.error "generation failure" ∨
      ∃ d, phase_a_draft svcFail (deduplicate_stories []) weatherW =
          Except.ok d ∧ phase_b_edit svcFail d =
            Except.error "generation failure") ∧
    (runMain svcFail "12 October 2025" weatherW []).result =
      Except.error "generation failure" ∧
    (runMain svcFail "12 October 2025" weatherW []).effects = [] :=
  ⟨Or.inl rfl,
   C2_fail_closed svcFail "12 October 2025" weatherW [] "generation failure"
     (Or.inl rfl)⟩

/-- C9: within one run the generation service is called first on
Phase A's prompt; a second call happens only if the first succeeded,
and its user content is built exactly from the normalized Phase A
response. -/
theorem C9_run_ordering (svc : GenService) (date_str : String)
    (weather : Weather) (raw_news : List Story) :
    (∃ e, svc build_drafter_system_prompt
        (phase_a_user_content (deduplicate_stories raw_news) weather) =
          Except.error e ∧
      (runMain svc date_str weather raw_news).llmCalls =
        [(build_drafter_system_prompt,
          phase_a_user_content (deduplicate_stories raw_news) weather)]) ∨
    (∃ r, svc build_drafter_system_prompt
        (phase_a_user_content (deduplicate_stories raw_news) weather) =
          Except.ok r ∧
      (runMain svc date_str weather raw_news).llmCalls =
        [(build_drafter_system_prompt,
          phase_a_user_content (deduplicate_stories raw_news) weather),
         (editor_system_prompt, phase_b_user_content (normalize r))]) := by
  rcases hA : svc build_drafter_system_prompt
      (phase_a_user_content (deduplicate_stories raw_news) weather) with e | r
  · left
    refine ⟨e, rfl, ?_⟩
    simp [runMain, phase_a_draft, call_llm, Except.map, hA]
  · right
    refine ⟨r, rfl, ?_⟩
    rcases hB : svc editor_system_prompt (phase_b_user_content (normalize r))
      with e' | r'
    · simp [runMain, phase_a_draft, phase_b_edit, call_llm, Except.map, hA, hB]
    · simp [runMain, phase_a_draft, phase_b_edit, call_llm, Except.map, hA, hB]

end PrixSix
